import Mathlib

/-!
Shallow embedding of `chrome/browser/notifications/desktop_notification_service.cc`.

The service keeps, in the profile's preference store, a persisted default
content setting (an integer preference), a list of allowed origins and a
list of denied origins (list preferences of origin-spec strings), and
answers permission queries from them.  Off-the-record (incognito) profiles
are modelled by the `isOffTheRecord` flag consulted by the guarded
operations exactly where the source consults `profile_->IsOffTheRecord()`.

Origins are modelled by their canonical spec strings (`GURL::spec()`), which
is exactly the representation the source stores in the preference lists and
compares with `StringValue` equality.
-/

/-- The `ContentSetting` enum from `chrome/common/content_settings.h` (the
header is a declaration outside this repository's sources; the enum values
are fixed by the preference encoding used here):
`CONTENT_SETTING_DEFAULT = 0`, `ALLOW = 1`, `BLOCK = 2`, `ASK = 3`. -/
inductive ContentSetting where
  | default
  | allow
  | block
  | ask
deriving DecidableEq, Repr

/-- `const ContentSetting kDefaultSetting = CONTENT_SETTING_ASK;` (line 41). -/
def kDefaultSetting : ContentSetting := ContentSetting.ask

/-- Modelled from the spec: the store persistence boundary reads the default
policy as a raw integer (`ReadDefaultPolicy() -> int`); `IntToContentSetting`
(declared in `chrome/common/content_settings.h`, outside src/) decodes it,
with every integer outside the enum range decoding to the
`CONTENT_SETTING_DEFAULT` sentinel. -/
def IntToContentSetting (n : Int) : ContentSetting :=
  if n = 1 then ContentSetting.allow
  else if n = 2 then ContentSetting.block
  else if n = 3 then ContentSetting.ask
  else ContentSetting.default

/-- The integer encoding of a `ContentSetting`, as stored by
`PrefService::SetInteger`. -/
def contentSettingToInt : ContentSetting → Int
  | ContentSetting.default => 0
  | ContentSetting.allow => 1
  | ContentSetting.block => 2
  | ContentSetting.ask => 3

/-- The slice of the profile's `PrefService` state this service touches:
`kDesktopNotificationDefaultContentSetting` (integer),
`kDesktopNotificationAllowedOrigins` and `kDesktopNotificationDeniedOrigins`
(lists of origin-spec strings). -/
structure PrefsState where
  defaultSettingInt : Int
  allowed : List String
  denied : List String
deriving DecidableEq, Repr

/-- A `DesktopNotificationService` together with its profile's persisted
preference slice. -/
structure ServiceState where
  isOffTheRecord : Bool
  prefs : PrefsState
deriving DecidableEq, Repr

/-- `ListValue::Remove(value)` from base/values: removes the first element
equal to `value` and returns its index, or returns the list unchanged with
`-1` when no element matches. -/
def listRemove (l : List String) (v : String) : List String × Int :=
  if v ∈ l then (l.erase v, (l.indexOf v : Int)) else (l, -1)

/-- `ListValue::AppendIfNotPresent(value)` from base/values: appends `value`
and returns `true` when no equal element is present, otherwise leaves the
list unchanged and returns `false`. -/
def appendIfNotPresent (l : List String) (v : String) : List String × Bool :=
  if v ∈ l then (l, false) else (l ++ [v], true)

/-- `DesktopNotificationService::GetAllowedOrigins` (lines 416-426): reads the
allowed-origins list preference.  (`ListValueToGurlVector` converts the stored
spec strings back to `GURL`s; on the canonical spec strings we use as the
origin representation it is the identity.) -/
def GetAllowedOrigins (s : ServiceState) : List String :=
  s.prefs.allowed

/-- `DesktopNotificationService::GetBlockedOrigins` (lines 428-438). -/
def GetBlockedOrigins (s : ServiceState) : List String :=
  s.prefs.denied

/-- The value and flags produced by one `PersistPermissionChange` call:
the resulting state, the `allowed_changed` / `denied_changed` locals, and
whether `ScheduleSavePersistentPrefs` was invoked. -/
structure PersistResult where
  state : ServiceState
  allowed_changed : Bool
  denied_changed : Bool
  saveScheduled : Bool
deriving DecidableEq, Repr

/-- `DesktopNotificationService::PersistPermissionChange` (lines 333-396):
returns immediately for an off-the-record profile; otherwise removes the
origin from the opposite list (`ListValue::Remove`), appends it to the
destination list if absent (`ListValue::AppendIfNotPresent`), and calls
`ScheduleSavePersistentPrefs` iff at least one list changed. -/
def PersistPermissionChange (s : ServiceState) (origin : String)
    (is_allowed : Bool) : PersistResult :=
  if s.isOffTheRecord then
    { state := s, allowed_changed := false, denied_changed := false,
      saveScheduled := false }
  else if is_allowed then
    let rem := listRemove s.prefs.denied origin
    let app := appendIfNotPresent s.prefs.allowed origin
    let denied_changed : Bool := rem.2 != -1
    let allowed_changed : Bool := app.2
    { state := { s with prefs := { s.prefs with allowed := app.1, denied := rem.1 } },
      allowed_changed := allowed_changed,
      denied_changed := denied_changed,
      saveScheduled := allowed_changed || denied_changed }
  else
    let rem := listRemove s.prefs.allowed origin
    let app := appendIfNotPresent s.prefs.denied origin
    let allowed_changed : Bool := rem.2 != -1
    let denied_changed : Bool := app.2
    { state := { s with prefs := { s.prefs with allowed := rem.1, denied := app.1 } },
      allowed_changed := allowed_changed,
      denied_changed := denied_changed,
      saveScheduled := allowed_changed || denied_changed }

/-- `DesktopNotificationService::GetDefaultContentSetting` (lines 398-405):
decodes the stored integer; a decoded `CONTENT_SETTING_DEFAULT` is replaced
by `kDefaultSetting`. -/
def GetDefaultContentSetting (s : ServiceState) : ContentSetting :=
  let setting := IntToContentSetting s.prefs.defaultSettingInt
  if setting = ContentSetting.default then kDefaultSetting else setting

/-- `DesktopNotificationService::SetDefaultContentSetting` (lines 407-414):
stores the given setting, normalising `CONTENT_SETTING_DEFAULT` to
`kDefaultSetting` before the write. -/
def SetDefaultContentSetting (s : ServiceState) (setting : ContentSetting) :
    ServiceState :=
  { s with prefs := { s.prefs with
      defaultSettingInt := contentSettingToInt
        (if setting = ContentSetting.default then kDefaultSetting else setting) } }

/-- The value and flags produced by one `ResetAllowedOrigin` /
`ResetBlockedOrigin` call: the resulting state, the index returned by
`ListValue::Remove` (`-1` marks the `DCHECK_NE`-logged misuse case; it is
also `-1` on the off-the-record early return, where no removal is
attempted), and whether `ScheduleSavePersistentPrefs` was invoked. -/
structure ResetResult where
  state : ServiceState
  removedIndex : Int
  saveScheduled : Bool
deriving DecidableEq, Repr

/-- `DesktopNotificationService::ResetAllowedOrigin` (lines 440-457): returns
immediately for an off-the-record profile; otherwise removes the origin from
the allowed list (`DCHECK`ing that it was present) and schedules a save. -/
def ResetAllowedOrigin (s : ServiceState) (origin : String) : ResetResult :=
  if s.isOffTheRecord then
    { state := s, removedIndex := -1, saveScheduled := false }
  else
    let rem := listRemove s.prefs.allowed origin
    { state := { s with prefs := { s.prefs with allowed := rem.1 } },
      removedIndex := rem.2,
      saveScheduled := true }

/-- `DesktopNotificationService::ResetBlockedOrigin` (lines 459-476):
symmetric to `ResetAllowedOrigin`, acting on the denied list. -/
def ResetBlockedOrigin (s : ServiceState) (origin : String) : ResetResult :=
  if s.isOffTheRecord then
    { state := s, removedIndex := -1, saveScheduled := false }
  else
    let rem := listRemove s.prefs.denied origin
    { state := { s with prefs := { s.prefs with denied := rem.1 } },
      removedIndex := rem.2,
      saveScheduled := true }

/-- `DesktopNotificationService::ResetAllOrigins` (lines 478-482): calls
`PrefService::ClearPref` on both origin-list preferences, resetting each to
its registered default, the empty list.  Note: unlike the other mutators,
this function has no `IsOffTheRecord` guard in the source. -/
def ResetAllOrigins (s : ServiceState) : ServiceState :=
  { s with prefs := { s.prefs with allowed := [], denied := [] } }

/-- `DesktopNotificationService::GetContentSetting` (lines 484-501): returns
`kDefaultSetting` for an off-the-record profile; otherwise `ALLOW` if the
origin is in the allowed list, else `BLOCK` if it is in the denied list,
else the default content setting. -/
def GetContentSetting (s : ServiceState) (origin : String) : ContentSetting :=
  if s.isOffTheRecord then kDefaultSetting
  else if origin ∈ GetAllowedOrigins s then ContentSetting.allow
  else if origin ∈ GetBlockedOrigins s then ContentSetting.block
  else GetDefaultContentSetting s

/-- `DesktopNotificationService::GrantPermission` (lines 269-279): persists
the allow decision.  (The cache-update task it also posts touches only the
IO-thread prefs cache, which no claim-relevant path here reads back.) -/
def GrantPermission (s : ServiceState) (origin : String) : ServiceState :=
  (PersistPermissionChange s origin true).state

/-- `DesktopNotificationService::DenyPermission` (lines 281-291). -/
def DenyPermission (s : ServiceState) (origin : String) : ServiceState :=
  (PersistPermissionChange s origin false).state

/-- The externally visible action taken by one `RequestPermission` call. -/
inductive RequestAction where
  | noTab
  | showInfobar (origin : String) (process_id route_id callback_context : Int)
  | postCallback (process_id route_id callback_context : Int)
deriving DecidableEq, Repr

/-- `DesktopNotificationService::RequestPermission` (lines 503-528): with no
tab, does nothing; otherwise resolves the setting via `GetContentSetting`;
on `ASK` it adds a `NotificationPermissionInfoBarDelegate` infobar, and on
any other setting it immediately posts a
`NotificationPermissionCallbackTask(process_id, route_id, callback_context)`
to the IO thread. -/
def RequestPermission (s : ServiceState) (origin : String)
    (process_id route_id callback_context : Int) (hasTab : Bool) :
    RequestAction :=
  if !hasTab then RequestAction.noTab
  else if GetContentSetting s origin = ContentSetting.ask then
    RequestAction.showInfobar origin process_id route_id callback_context
  else
    RequestAction.postCallback process_id route_id callback_context

/-- The template resource chosen by `CreateDataUrl`:
`IDR_NOTIFICATION_ICON_HTML`, `IDR_NOTIFICATION_1LINE_HTML` or
`IDR_NOTIFICATION_2LINE_HTML`. -/
inductive LayoutResource where
  | iconHTML
  | oneLineHTML
  | twoLineHTML
deriving DecidableEq, Repr

/-- The observable output of `CreateDataUrl`: the chosen template resource
and the substitution strings pushed into `subst`, in push order.
(HTML-escaping and template expansion are performed by external collaborators
and are modelled as the identity on the substituted strings.) -/
structure DataUrlResult where
  resource : LayoutResource
  subst : List String
deriving DecidableEq, Repr

/-- `DesktopNotificationService::CreateDataUrl` (lines 44-88): with a valid
icon URL, the icon template with `[icon, title, body, float]` substitutions,
where the icon float is `"right"` for right-to-left text and `"left"`
otherwise; else, when the title or the body is empty, the one-line template
with `[line_name, line]` where `line` is whichever of the two is kept
(the body when the title is empty) and `line_name` names its div; else the
two-line template with `[title, body]`.  In every branch the body text
direction `"rtl"`/`"ltr"` is appended last. -/
def CreateDataUrl (iconValid : Bool) (iconSpec : String)
    (title body : String) (rtl : Bool) : DataUrlResult :=
  if iconValid then
    { resource := LayoutResource.iconHTML,
      subst := [iconSpec, title, body, if rtl then "right" else "left",
                if rtl then "rtl" else "ltr"] }
  else if title = "" ∨ body = "" then
    { resource := LayoutResource.oneLineHTML,
      subst := [if title = "" then "description" else "title",
                if title = "" then body else title,
                if rtl then "rtl" else "ltr"] }
  else
    { resource := LayoutResource.twoLineHTML,
      subst := [title, body, if rtl then "rtl" else "ltr"] }

/-- The layout-selection rule as the spec words it (§6): icon layout when the
icon is present; otherwise a single-line layout when exactly one of
title/body is non-empty; otherwise a two-line layout.  Kept separate from
`CreateDataUrl` (which embeds the source) so the two can be compared. -/
def specLayoutSelection (iconValid : Bool) (title body : String) :
    LayoutResource :=
  if iconValid then LayoutResource.iconHTML
  else if (title ≠ "" ∧ body = "") ∨ (title = "" ∧ body ≠ "") then
    LayoutResource.oneLineHTML
  else LayoutResource.twoLineHTML

/-- A `NotificationPermissionCallbackTask` posted to the IO thread: the
completion notice addressed to `(process_id, route_id, request_id)`
(lines 92-112; `request_id` carries the caller's `callback_context`). -/
structure Notice where
  process_id : Int
  route_id : Int
  request_id : Int
deriving DecidableEq, Repr

/-- The permission infobar delegate's state
(`NotificationPermissionInfoBarDelegate`, lines 116-201): the origin it asks
about, the callback coordinates, and the `action_taken_` flag. -/
structure InfoBarDelegate where
  origin : String
  process_id : Int
  route_id : Int
  callback_context : Int
  action_taken : Bool
deriving DecidableEq, Repr

/-- `NotificationPermissionInfoBarDelegate::Accept` (lines 166-171): grants
permission for the origin and records that an action was taken.  Posts no
completion notice itself. -/
def delegateAccept (s : ServiceState) (d : InfoBarDelegate) :
    ServiceState × InfoBarDelegate :=
  (GrantPermission s d.origin, { d with action_taken := true })

/-- `NotificationPermissionInfoBarDelegate::Cancel` (lines 173-178): denies
permission for the origin and records that an action was taken.  Posts no
completion notice itself. -/
def delegateCancel (s : ServiceState) (d : InfoBarDelegate) :
    ServiceState × InfoBarDelegate :=
  (DenyPermission s d.origin, { d with action_taken := true })

/-- `NotificationPermissionInfoBarDelegate::InfoBarClosed` (lines 135-145):
posts exactly one `NotificationPermissionCallbackTask` addressed with the
delegate's coordinates, whether or not a button action was taken. -/
def delegateInfoBarClosed (d : InfoBarDelegate) : List Notice :=
  [{ process_id := d.process_id, route_id := d.route_id,
     request_id := d.callback_context }]

/-- The three ways a shown permission prompt can end. -/
inductive PromptOutcome where
  | accept
  | deny
  | dismiss
deriving DecidableEq, Repr

/-- Modelled from the spec: the infobar framework (outside src/) delivers at
most one button action (`Accept` on the OK button, `Cancel` on the cancel
button, neither on a dismissal) and then always invokes `InfoBarClosed`
exactly once when the infobar is removed.  The delegate methods composed
here are embedded from the source. -/
def runPrompt (s : ServiceState) (d : InfoBarDelegate)
    (outcome : PromptOutcome) : ServiceState × List Notice :=
  match outcome with
  | PromptOutcome.accept =>
    let r := delegateAccept s d
    (r.1, delegateInfoBarClosed r.2)
  | PromptOutcome.deny =>
    let r := delegateCancel s d
    (r.1, delegateInfoBarClosed r.2)
  | PromptOutcome.dismiss =>
    (s, delegateInfoBarClosed d)

/-- One store-mutating operation of the kind claim C1 quantifies over:
a `RecordDecision` (`PersistPermissionChange`) or a `ResetOrigin`
(`ResetAllowedOrigin` / `ResetBlockedOrigin`). -/
inductive StoreOp where
  | record (origin : String) (is_allowed : Bool)
  | resetAllowedOp (origin : String)
  | resetBlockedOp (origin : String)
deriving DecidableEq, Repr

/-- Applies one `StoreOp` to the service state. -/
def applyStoreOp (s : ServiceState) : StoreOp → ServiceState
  | StoreOp.record origin b => (PersistPermissionChange s origin b).state
  | StoreOp.resetAllowedOp origin => (ResetAllowedOrigin s origin).state
  | StoreOp.resetBlockedOp origin => (ResetBlockedOrigin s origin).state

/-- Applies a sequence of `StoreOp`s, oldest first. -/
def applyStoreOps (s : ServiceState) (ops : List StoreOp) : ServiceState :=
  ops.foldl applyStoreOp s

/-- One `GrantPermission` / `DenyPermission` call, as quantified over by
claim C10. -/
inductive GrantDenyOp where
  | grant (origin : String)
  | deny (origin : String)
deriving DecidableEq, Repr

/-- Applies one `GrantPermission` / `DenyPermission` call. -/
def applyGrantDeny (s : ServiceState) : GrantDenyOp → ServiceState
  | GrantDenyOp.grant origin => GrantPermission s origin
  | GrantDenyOp.deny origin => DenyPermission s origin

/-- Applies a sequence of grant/deny calls, oldest first. -/
def applyGrantDenySeq (s : ServiceState) (ops : List GrantDenyOp) :
    ServiceState :=
  ops.foldl applyGrantDeny s

/-- The two persisted origin lists are duplicate-free and no origin is in
both: the well-formedness the spec's data model asserts for `OriginList`
(§3) and the profile's initial empty lists satisfy. -/
def WellFormedLists (p : PrefsState) : Prop :=
  p.allowed.Nodup ∧ p.denied.Nodup ∧ ∀ o : String, ¬(o ∈ p.allowed ∧ o ∈ p.denied)

/-! ### Basic lemmas about the `base/values` list primitives -/

theorem listRemove_fst (l : List String) (v : String) :
    (listRemove l v).1 = l.erase v := by
  unfold listRemove
  split
  · rfl
  · rename_i h
    rw [List.erase_of_not_mem (by simpa using h)]

theorem listRemove_snd_eq_neg_one_iff (l : List String) (v : String) :
    (listRemove l v).2 = -1 ↔ v ∉ l := by
  unfold listRemove
  split
  · rename_i h
    simp only [h, not_true_eq_false, iff_false]
    omega
  · rename_i h
    simp [h]

theorem listRemove_changed (l : List String) (v : String) :
    (((listRemove l v).2 != -1) = true) ↔ v ∈ l := by
  rw [bne_iff_ne, ne_eq, listRemove_snd_eq_neg_one_iff]
  exact not_not

theorem listRemove_changed_eq (l : List String) (v : String) :
    ((listRemove l v).2 != -1) = decide (v ∈ l) := by
  by_cases hm : v ∈ l
  · rw [listRemove, if_pos hm, decide_eq_true hm]
    simp only [bne_iff_ne, ne_eq]
    intro hc
    omega
  · simp [listRemove, hm]

theorem appendIfNotPresent_self_mem (l : List String) (v : String) :
    v ∈ (appendIfNotPresent l v).1 := by
  unfold appendIfNotPresent
  split
  · assumption
  · simp

theorem appendIfNotPresent_mem_iff (l : List String) (v x : String) :
    x ∈ (appendIfNotPresent l v).1 ↔ x ∈ l ∨ x = v := by
  unfold appendIfNotPresent
  split
  · rename_i h
    constructor
    · exact Or.inl
    · rintro (hx | rfl)
      · exact hx
      · exact h
  · simp

theorem appendIfNotPresent_nodup (l : List String) (v : String)
    (h : l.Nodup) : (appendIfNotPresent l v).1.Nodup := by
  unfold appendIfNotPresent
  split
  · exact h
  · rename_i hv
    simpa [List.nodup_append] using ⟨h, hv⟩

theorem appendIfNotPresent_snd (l : List String) (v : String) :
    (appendIfNotPresent l v).2 = !decide (v ∈ l) := by
  unfold appendIfNotPresent
  split <;> rename_i h <;> simp [h]

/-! ### Shape lemmas for the store mutators on a regular profile -/

theorem persist_allow_state (s : ServiceState) (o : String)
    (h : s.isOffTheRecord = false) :
    (PersistPermissionChange s o true).state =
      { s with prefs := { s.prefs with
          allowed := (appendIfNotPresent s.prefs.allowed o).1,
          denied := s.prefs.denied.erase o } } := by
  simp [PersistPermissionChange, h, listRemove_fst]

theorem persist_deny_state (s : ServiceState) (o : String)
    (h : s.isOffTheRecord = false) :
    (PersistPermissionChange s o false).state =
      { s with prefs := { s.prefs with
          allowed := s.prefs.allowed.erase o,
          denied := (appendIfNotPresent s.prefs.denied o).1 } } := by
  simp [PersistPermissionChange, h, listRemove_fst]

theorem persist_otr_result (s : ServiceState) (o : String) (b : Bool)
    (h : s.isOffTheRecord = true) :
    PersistPermissionChange s o b =
      { state := s, allowed_changed := false, denied_changed := false,
        saveScheduled := false } := by
  simp [PersistPermissionChange, h]

theorem persist_allow_flags (s : ServiceState) (o : String)
    (h : s.isOffTheRecord = false) :
    (PersistPermissionChange s o true).allowed_changed
        = !decide (o ∈ s.prefs.allowed) ∧
      (PersistPermissionChange s o true).denied_changed
        = decide (o ∈ s.prefs.denied) ∧
      (PersistPermissionChange s o true).saveScheduled
        = ((PersistPermissionChange s o true).allowed_changed
            || (PersistPermissionChange s o true).denied_changed) := by
  refine ⟨?_, ?_, ?_⟩ <;>
    simp [PersistPermissionChange, h, appendIfNotPresent_snd,
      listRemove_changed_eq]

theorem resetAllowed_state (s : ServiceState) (o : String)
    (h : s.isOffTheRecord = false) :
    (ResetAllowedOrigin s o).state =
      { s with prefs := { s.prefs with
          allowed := s.prefs.allowed.erase o } } := by
  simp [ResetAllowedOrigin, h, listRemove_fst]

theorem resetBlocked_state (s : ServiceState) (o : String)
    (h : s.isOffTheRecord = false) :
    (ResetBlockedOrigin s o).state =
      { s with prefs := { s.prefs with
          denied := s.prefs.denied.erase o } } := by
  simp [ResetBlockedOrigin, h, listRemove_fst]

theorem resetAllowed_otr (s : ServiceState) (o : String)
    (h : s.isOffTheRecord = true) :
    ResetAllowedOrigin s o =
      { state := s, removedIndex := -1, saveScheduled := false } := by
  simp [ResetAllowedOrigin, h]

theorem resetBlocked_otr (s : ServiceState) (o : String)
    (h : s.isOffTheRecord = true) :
    ResetBlockedOrigin s o =
      { state := s, removedIndex := -1, saveScheduled := false } := by
  simp [ResetBlockedOrigin, h]

/-! ### The store mutators preserve well-formedness of the origin lists -/

theorem wellFormed_persist (s : ServiceState) (o : String) (b : Bool)
    (h : WellFormedLists s.prefs) :
    WellFormedLists (PersistPermissionChange s o b).state.prefs := by
  obtain ⟨ha, hd, hx⟩ := h
  cases hotr : s.isOffTheRecord
  · cases b
    · rw [persist_deny_state s o hotr]
      refine ⟨ha.erase o, appendIfNotPresent_nodup _ _ hd, ?_⟩
      rintro x ⟨hxa, hxd⟩
      rcases (appendIfNotPresent_mem_iff _ _ _).1 hxd with hxd2 | rfl
      · exact hx x ⟨List.mem_of_mem_erase hxa, hxd2⟩
      · exact ((ha.mem_erase_iff).1 hxa).1 rfl
    · rw [persist_allow_state s o hotr]
      refine ⟨appendIfNotPresent_nodup _ _ ha, hd.erase o, ?_⟩
      rintro x ⟨hxa, hxd⟩
      rcases (appendIfNotPresent_mem_iff _ _ _).1 hxa with hxa2 | rfl
      · exact hx x ⟨hxa2, List.mem_of_mem_erase hxd⟩
      · exact ((hd.mem_erase_iff).1 hxd).1 rfl
  · rw [persist_otr_result s o b hotr]
    exact ⟨ha, hd, hx⟩

theorem wellFormed_resetAllowed (s : ServiceState) (o : String)
    (h : WellFormedLists s.prefs) :
    WellFormedLists (ResetAllowedOrigin s o).state.prefs := by
  obtain ⟨ha, hd, hx⟩ := h
  cases hotr : s.isOffTheRecord
  · rw [resetAllowed_state s o hotr]
    refine ⟨ha.erase o, hd, ?_⟩
    rintro x ⟨hxa, hxd⟩
    exact hx x ⟨List.mem_of_mem_erase hxa, hxd⟩
  · rw [resetAllowed_otr s o hotr]
    exact ⟨ha, hd, hx⟩

theorem wellFormed_resetBlocked (s : ServiceState) (o : String)
    (h : WellFormedLists s.prefs) :
    WellFormedLists (ResetBlockedOrigin s o).state.prefs := by
  obtain ⟨ha, hd, hx⟩ := h
  cases hotr : s.isOffTheRecord
  · rw [resetBlocked_state s o hotr]
    refine ⟨ha, hd.erase o, ?_⟩
    rintro x ⟨hxa, hxd⟩
    exact hx x ⟨hxa, List.mem_of_mem_erase hxd⟩
  · rw [resetBlocked_otr s o hotr]
    exact ⟨ha, hd, hx⟩

theorem wellFormed_applyStoreOp (s : ServiceState) (op : StoreOp)
    (h : WellFormedLists s.prefs) :
    WellFormedLists (applyStoreOp s op).prefs := by
  cases op
  · exact wellFormed_persist _ _ _ h
  · exact wellFormed_resetAllowed _ _ h
  · exact wellFormed_resetBlocked _ _ h

theorem wellFormed_applyStoreOps (s : ServiceState) (ops : List StoreOp)
    (h : WellFormedLists s.prefs) :
    WellFormedLists (applyStoreOps s ops).prefs := by
  induction ops generalizing s with
  | nil => exact h
  | cons op rest ih => exact ih _ (wellFormed_applyStoreOp s op h)

theorem persist_deny_flags (s : ServiceState) (o : String)
    (h : s.isOffTheRecord = false) :
    (PersistPermissionChange s o false).allowed_changed
        = decide (o ∈ s.prefs.allowed) ∧
      (PersistPermissionChange s o false).denied_changed
        = !decide (o ∈ s.prefs.denied) ∧
      (PersistPermissionChange s o false).saveScheduled
        = ((PersistPermissionChange s o false).allowed_changed
            || (PersistPermissionChange s o false).denied_changed) := by
  refine ⟨?_, ?_, ?_⟩ <;>
    simp [PersistPermissionChange, h, appendIfNotPresent_snd,
      listRemove_changed_eq]

theorem not_mem_erase_self (l : List String) (v : String) (h : l.Nodup) :
    v ∉ l.erase v := by
  intro hv
  exact ((h.mem_erase_iff).1 hv).1 rfl

theorem persist_allow_noop (s : ServiceState) (o : String)
    (hotr : s.isOffTheRecord = false)
    (hmem : o ∈ s.prefs.allowed) (hnd : o ∉ s.prefs.denied) :
    PersistPermissionChange s o true
      = { state := s, allowed_changed := false, denied_changed := false,
          saveScheduled := false } := by
  obtain ⟨otr, di, al, de⟩ := s
  dsimp only at hotr hmem hnd
  subst hotr
  simp [PersistPermissionChange, listRemove, appendIfNotPresent, hmem, hnd]

theorem persist_deny_noop (s : ServiceState) (o : String)
    (hotr : s.isOffTheRecord = false)
    (hmem : o ∈ s.prefs.denied) (hna : o ∉ s.prefs.allowed) :
    PersistPermissionChange s o false
      = { state := s, allowed_changed := false, denied_changed := false,
          saveScheduled := false } := by
  obtain ⟨otr, di, al, de⟩ := s
  dsimp only at hotr hmem hna
  subst hotr
  simp [PersistPermissionChange, listRemove, appendIfNotPresent, hmem, hna]

/-- C1: for every origin `O` and every sequence of `RecordDecision`
(`PersistPermissionChange`) and `ResetOrigin` (`ResetAllowedOrigin` /
`ResetBlockedOrigin`) operations on a non-ephemeral profile, starting from
well-formed origin lists (duplicate-free and mutually exclusive, as the
profile's initial empty lists are), `O` appears in at most one of the
allowed and denied origin lists after the sequence completes. -/
theorem C1_origin_in_at_most_one_list (s : ServiceState) (ops : List StoreOp)
    (hotr : s.isOffTheRecord = false) (hwf : WellFormedLists s.prefs)
    (o : String) :
    ¬(o ∈ (applyStoreOps s ops).prefs.allowed ∧
      o ∈ (applyStoreOps s ops).prefs.denied) :=
  (wellFormed_applyStoreOps s ops hwf).2.2 o

/-- Witness for C1: a concrete profile and operation sequence. -/
theorem C1_origin_in_at_most_one_list_witness :
    ¬("http://www.example.com/" ∈ (applyStoreOps
        { isOffTheRecord := false,
          prefs := { defaultSettingInt := 3, allowed := [], denied := [] } }
        [StoreOp.record "http://www.example.com/" true,
         StoreOp.record "http://www.example.com/" false,
         StoreOp.record "http://www.other.com/" true,
         StoreOp.resetBlockedOp "http://www.example.com/"]).prefs.allowed ∧
      "http://www.example.com/" ∈ (applyStoreOps
        { isOffTheRecord := false,
          prefs := { defaultSettingInt := 3, allowed := [], denied := [] } }
        [StoreOp.record "http://www.example.com/" true,
         StoreOp.record "http://www.example.com/" false,
         StoreOp.record "http://www.other.com/" true,
         StoreOp.resetBlockedOp "http://www.example.com/"]).prefs.denied) :=
  C1_origin_in_at_most_one_list _ _ rfl
    ⟨List.nodup_nil, List.nodup_nil, by simp⟩ _

/-- C2: on a non-ephemeral profile with well-formed lists, `GetContentSetting`
returns ALLOW for an origin in the allowed list, otherwise BLOCK for an
origin in the denied list, otherwise the default policy; and the query after
`RecordDecision(O, true)` (`GrantPermission`) returns ALLOW, after
`RecordDecision(O, false)` (`DenyPermission`) returns BLOCK, and after
resetting `O` out of the list holding it returns the default policy. -/
theorem C2_query_resolution (s : ServiceState) (o : String)
    (hotr : s.isOffTheRecord = false) (hwf : WellFormedLists s.prefs) :
    (o ∈ s.prefs.allowed → GetContentSetting s o = ContentSetting.allow) ∧
    (o ∉ s.prefs.allowed → o ∈ s.prefs.denied →
      GetContentSetting s o = ContentSetting.block) ∧
    (o ∉ s.prefs.allowed → o ∉ s.prefs.denied →
      GetContentSetting s o = GetDefaultContentSetting s) ∧
    GetContentSetting (GrantPermission s o) o = ContentSetting.allow ∧
    GetContentSetting (DenyPermission s o) o = ContentSetting.block ∧
    (o ∈ s.prefs.allowed →
      GetContentSetting (ResetAllowedOrigin s o).state o
        = GetDefaultContentSetting s) ∧
    (o ∈ s.prefs.denied →
      GetContentSetting (ResetBlockedOrigin s o).state o
        = GetDefaultContentSetting s) := by
  obtain ⟨ha, hd, hx⟩ := hwf
  refine ⟨?_, ?_, ?_, ?_, ?_, ?_, ?_⟩
  · intro hm
    simp [GetContentSetting, GetAllowedOrigins, hotr, hm]
  · intro hna hm
    simp [GetContentSetting, GetAllowedOrigins, GetBlockedOrigins, hotr,
      hna, hm]
  · intro hna hnd
    simp [GetContentSetting, GetAllowedOrigins, GetBlockedOrigins, hotr,
      hna, hnd]
  · rw [GrantPermission, persist_allow_state s o hotr]
    simp [GetContentSetting, GetAllowedOrigins, hotr,
      appendIfNotPresent_self_mem]
  · rw [DenyPermission, persist_deny_state s o hotr]
    simp [GetContentSetting, GetAllowedOrigins, GetBlockedOrigins, hotr,
      not_mem_erase_self s.prefs.allowed o ha, appendIfNotPresent_self_mem]
  · intro hm
    have hnd : o ∉ s.prefs.denied := fun hdm => hx o ⟨hm, hdm⟩
    rw [resetAllowed_state s o hotr]
    simp [GetContentSetting, GetAllowedOrigins, GetBlockedOrigins,
      GetDefaultContentSetting, hotr,
      not_mem_erase_self s.prefs.allowed o ha, hnd]
  · intro hm
    have hna : o ∉ s.prefs.allowed := fun ham => hx o ⟨ham, hm⟩
    rw [resetBlocked_state s o hotr]
    simp [GetContentSetting, GetAllowedOrigins, GetBlockedOrigins,
      GetDefaultContentSetting, hotr,
      not_mem_erase_self s.prefs.denied o hd, hna]

/-- Witness for C2: a concrete profile with one allowed and one denied
origin. -/
theorem C2_query_resolution_witness :
    ("http://a.test/" ∈ (["http://a.test/"] : List String) →
      GetContentSetting
        { isOffTheRecord := false,
          prefs := { defaultSettingInt := 3,
                     allowed := ["http://a.test/"],
                     denied := ["http://b.test/"] } } "http://a.test/"
        = ContentSetting.allow) ∧
    ("http://a.test/" ∉ (["http://a.test/"] : List String) →
      "http://a.test/" ∈ (["http://b.test/"] : List String) →
      GetContentSetting
        { isOffTheRecord := false,
          prefs := { defaultSettingInt := 3,
                     allowed := ["http://a.test/"],
                     denied := ["http://b.test/"] } } "http://a.test/"
        = ContentSetting.block) ∧
    ("http://a.test/" ∉ (["http://a.test/"] : List String) →
      "http://a.test/" ∉ (["http://b.test/"] : List String) →
      GetContentSetting
        { isOffTheRecord := false,
          prefs := { defaultSettingInt := 3,
                     allowed := ["http://a.test/"],
                     denied := ["http://b.test/"] } } "http://a.test/"
        = GetDefaultContentSetting
            { isOffTheRecord := false,
              prefs := { defaultSettingInt := 3,
                         allowed := ["http://a.test/"],
                         denied := ["http://b.test/"] } }) ∧
    GetContentSetting (GrantPermission
        { isOffTheRecord := false,
          prefs := { defaultSettingInt := 3,
                     allowed := ["http://a.test/"],
                     denied := ["http://b.test/"] } } "http://a.test/")
        "http://a.test/" = ContentSetting.allow ∧
    GetContentSetting (DenyPermission
        { isOffTheRecord := false,
          prefs := { defaultSettingInt := 3,
                     allowed := ["http://a.test/"],
                     denied := ["http://b.test/"] } } "http://a.test/")
        "http://a.test/" = ContentSetting.block ∧
    ("http://a.test/" ∈ (["http://a.test/"] : List String) →
      GetContentSetting (ResetAllowedOrigin
          { isOffTheRecord := false,
            prefs := { defaultSettingInt := 3,
                       allowed := ["http://a.test/"],
                       denied := ["http://b.test/"] } } "http://a.test/").state
          "http://a.test/"
        = GetDefaultContentSetting
            { isOffTheRecord := false,
              prefs := { defaultSettingInt := 3,
                         allowed := ["http://a.test/"],
                         denied := ["http://b.test/"] } }) ∧
    ("http://a.test/" ∈ (["http://b.test/"] : List String) →
      GetContentSetting (ResetBlockedOrigin
          { isOffTheRecord := false,
            prefs := { defaultSettingInt := 3,
                       allowed := ["http://a.test/"],
                       denied := ["http://b.test/"] } } "http://a.test/").state
          "http://a.test/"
        = GetDefaultContentSetting
            { isOffTheRecord := false,
              prefs := { defaultSettingInt := 3,
                         allowed := ["http://a.test/"],
                         denied := ["http://b.test/"] } }) :=
  C2_query_resolution
    { isOffTheRecord := false,
      prefs := { defaultSettingInt := 3,
                 allowed := ["http://a.test/"], denied := ["http://b.test/"] } }
    "http://a.test/" rfl
    ⟨by simp, by simp, by
      rintro o ⟨h1, h2⟩
      simp only [List.mem_singleton] at h1 h2
      subst h1
      exact absurd h2 (by decide)⟩

/-- C3: with a tab present, `RequestPermission` immediately posts the
completion callback and shows no infobar when the resolved setting is ALLOW
or BLOCK, shows the permission infobar when it is ASK, and in particular
never shows the infobar for an unseen origin on a regular profile whose
default policy resolves to BLOCK. -/
theorem C3_request_permission_dispatch (s : ServiceState) (o : String)
    (pid rid ctx : Int) :
    ((GetContentSetting s o = ContentSetting.allow ∨
        GetContentSetting s o = ContentSetting.block) →
      RequestPermission s o pid rid ctx true
        = RequestAction.postCallback pid rid ctx) ∧
    (GetContentSetting s o = ContentSetting.ask →
      RequestPermission s o pid rid ctx true
        = RequestAction.showInfobar o pid rid ctx) ∧
    (s.isOffTheRecord = false → o ∉ s.prefs.allowed → o ∉ s.prefs.denied →
      GetDefaultContentSetting s = ContentSetting.block →
      RequestPermission s o pid rid ctx true
        = RequestAction.postCallback pid rid ctx) := by
  refine ⟨?_, ?_, ?_⟩
  · rintro (h | h) <;> simp [RequestPermission, h]
  · intro h
    simp [RequestPermission, h]
  · intro hotr hna hnd hdef
    have hq : GetContentSetting s o = ContentSetting.block := by
      simp [GetContentSetting, GetAllowedOrigins, GetBlockedOrigins, hotr,
        hna, hnd, hdef]
    simp [RequestPermission, hq]

/-- Witness for C3: the default-BLOCK, unseen-origin scenario on a concrete
profile posts the callback rather than showing the infobar. -/
theorem C3_request_permission_dispatch_witness :
    RequestPermission
      { isOffTheRecord := false,
        prefs := { defaultSettingInt := 2, allowed := [], denied := [] } }
      "http://fresh.test/" 7 8 9 true
      = RequestAction.postCallback 7 8 9 :=
  (C3_request_permission_dispatch
      { isOffTheRecord := false,
        prefs := { defaultSettingInt := 2, allowed := [], denied := [] } }
      "http://fresh.test/" 7 8 9).2.2 rfl (by simp) (by simp) (by decide)

/-- C4: every permission request yields exactly one completion notice
addressed to the request's coordinates: the immediate `RequestPermission`
path posts exactly one `NotificationPermissionCallbackTask` when the setting
is already decided, and a shown prompt posts exactly one such task whatever
its outcome (Accept, Deny, or closed without a choice), because
`InfoBarClosed` posts it unconditionally. -/
theorem C4_exactly_one_completion_notice (s : ServiceState)
    (d : InfoBarDelegate) (outcome : PromptOutcome) (o : String)
    (pid rid ctx : Int) :
    (runPrompt s d outcome).2
        = [{ process_id := d.process_id, route_id := d.route_id,
             request_id := d.callback_context }] ∧
    (GetContentSetting s o ≠ ContentSetting.ask →
      RequestPermission s o pid rid ctx true
        = RequestAction.postCallback pid rid ctx) := by
  constructor
  · cases outcome <;> rfl
  · intro h
    simp [RequestPermission, h]

/-- Witness for C4: a dismissed prompt on a concrete profile still yields
exactly the one completion notice for its coordinates. -/
theorem C4_exactly_one_completion_notice_witness :
    (runPrompt
        { isOffTheRecord := false,
          prefs := { defaultSettingInt := 3, allowed := [], denied := [] } }
        { origin := "http://w.test/", process_id := 4, route_id := 5,
          callback_context := 6, action_taken := false }
        PromptOutcome.dismiss).2
      = [{ process_id := 4, route_id := 5, request_id := 6 }] ∧
    (GetContentSetting
        { isOffTheRecord := false,
          prefs := { defaultSettingInt := 3, allowed := [], denied := [] } }
        "http://w.test/" ≠ ContentSetting.ask →
      RequestPermission
        { isOffTheRecord := false,
          prefs := { defaultSettingInt := 3, allowed := [], denied := [] } }
        "http://w.test/" 4 5 6 true
        = RequestAction.postCallback 4 5 6) :=
  C4_exactly_one_completion_notice
    { isOffTheRecord := false,
      prefs := { defaultSettingInt := 3, allowed := [], denied := [] } }
    { origin := "http://w.test/", process_id := 4, route_id := 5,
      callback_context := 6, action_taken := false }
    PromptOutcome.dismiss "http://w.test/" 4 5 6

/-- Counterexample to C5: on an off-the-record profile whose preference
store holds an allowed origin, `ResetAllOrigins` is not ignored — it clears
the persisted lists, because unlike the other mutators it has no
`IsOffTheRecord` guard (source lines 478-482). -/
theorem C5_counterexample :
    ResetAllOrigins
        { isOffTheRecord := true,
          prefs := { defaultSettingInt := 3,
                     allowed := ["http://www.example.com/"], denied := [] } }
      ≠ { isOffTheRecord := true,
          prefs := { defaultSettingInt := 3,
                     allowed := ["http://www.example.com/"], denied := [] } } := by
  decide

/-- C5 as amended: on an off-the-record profile, `PersistPermissionChange`,
`ResetAllowedOrigin` and `ResetBlockedOrigin` are silently ignored — no
preference mutation, no scheduled save — but `ResetAllOrigins` is not
guarded and clears both origin lists regardless of the profile kind. -/
theorem C5_amended_ephemeral_writes (s : ServiceState) (o : String)
    (b : Bool) (h : s.isOffTheRecord = true) :
    PersistPermissionChange s o b
        = { state := s, allowed_changed := false, denied_changed := false,
            saveScheduled := false } ∧
    ResetAllowedOrigin s o
        = { state := s, removedIndex := -1, saveScheduled := false } ∧
    ResetBlockedOrigin s o
        = { state := s, removedIndex := -1, saveScheduled := false } ∧
    (ResetAllOrigins s).prefs.allowed = [] ∧
    (ResetAllOrigins s).prefs.denied = [] :=
  ⟨persist_otr_result s o b h, resetAllowed_otr s o h, resetBlocked_otr s o h,
    rfl, rfl⟩

/-- Witness for the amended C5 at a concrete off-the-record profile. -/
theorem C5_amended_ephemeral_writes_witness :
    PersistPermissionChange
        { isOffTheRecord := true,
          prefs := { defaultSettingInt := 3,
                     allowed := ["http://kept.test/"], denied := [] } }
        "http://x.test/" true
        = { state := { isOffTheRecord := true,
                       prefs := { defaultSettingInt := 3,
                                  allowed := ["http://kept.test/"],
                                  denied := [] } },
            allowed_changed := false, denied_changed := false,
            saveScheduled := false } ∧
    ResetAllowedOrigin
        { isOffTheRecord := true,
          prefs := { defaultSettingInt := 3,
                     allowed := ["http://kept.test/"], denied := [] } }
        "http://x.test/"
        = { state := { isOffTheRecord := true,
                       prefs := { defaultSettingInt := 3,
                                  allowed := ["http://kept.test/"],
                                  denied := [] } },
            removedIndex := -1, saveScheduled := false } ∧
    ResetBlockedOrigin
        { isOffTheRecord := true,
          prefs := { defaultSettingInt := 3,
                     allowed := ["http://kept.test/"], denied := [] } }
        "http://x.test/"
        = { state := { isOffTheRecord := true,
                       prefs := { defaultSettingInt := 3,
                                  allowed := ["http://kept.test/"],
                                  denied := [] } },
            removedIndex := -1, saveScheduled := false } ∧
    (ResetAllOrigins
        { isOffTheRecord := true,
          prefs := { defaultSettingInt := 3,
                     allowed := ["http://kept.test/"],
                     denied := [] } }).prefs.allowed = [] ∧
    (ResetAllOrigins
        { isOffTheRecord := true,
          prefs := { defaultSettingInt := 3,
                     allowed := ["http://kept.test/"],
                     denied := [] } }).prefs.denied = [] :=
  C5_amended_ephemeral_writes
    { isOffTheRecord := true,
      prefs := { defaultSettingInt := 3,
                 allowed := ["http://kept.test/"], denied := [] } }
    "http://x.test/" true rfl

/-- C6: `RecordDecision` is idempotent.  With well-formed lists, repeating
`PersistPermissionChange(O, true)` leaves the state of the first call
unchanged and the repeat reports `allowed_changed = false`,
`denied_changed = false` and schedules no save; symmetrically for
`PersistPermissionChange(O, false)`. -/
theorem C6_record_decision_idempotent (s : ServiceState) (o : String)
    (hwf : WellFormedLists s.prefs) :
    ((PersistPermissionChange (PersistPermissionChange s o true).state o
          true).state
        = (PersistPermissionChange s o true).state ∧
      (PersistPermissionChange (PersistPermissionChange s o true).state o
          true).allowed_changed = false ∧
      (PersistPermissionChange (PersistPermissionChange s o true).state o
          true).denied_changed = false ∧
      (PersistPermissionChange (PersistPermissionChange s o true).state o
          true).saveScheduled = false) ∧
    ((PersistPermissionChange (PersistPermissionChange s o false).state o
          false).state
        = (PersistPermissionChange s o false).state ∧
      (PersistPermissionChange (PersistPermissionChange s o false).state o
          false).denied_changed = false ∧
      (PersistPermissionChange (PersistPermissionChange s o false).state o
          false).allowed_changed = false ∧
      (PersistPermissionChange (PersistPermissionChange s o false).state o
          false).saveScheduled = false) := by
  obtain ⟨ha, hd, hx⟩ := hwf
  cases hotr : s.isOffTheRecord
  · constructor
    · have hs1 := persist_allow_state s o hotr
      have hotr1 : (PersistPermissionChange s o true).state.isOffTheRecord
          = false := by rw [hs1]; exact hotr
      have hmem : o ∈ (PersistPermissionChange s o true).state.prefs.allowed := by
        rw [hs1]; exact appendIfNotPresent_self_mem _ _
      have hnd : o ∉ (PersistPermissionChange s o true).state.prefs.denied := by
        rw [hs1]; exact not_mem_erase_self _ _ hd
      rw [persist_allow_noop _ o hotr1 hmem hnd]
      exact ⟨rfl, rfl, rfl, rfl⟩
    · have hs1 := persist_deny_state s o hotr
      have hotr1 : (PersistPermissionChange s o false).state.isOffTheRecord
          = false := by rw [hs1]; exact hotr
      have hmem : o ∈ (PersistPermissionChange s o false).state.prefs.denied := by
        rw [hs1]; exact appendIfNotPresent_self_mem _ _
      have hna : o ∉ (PersistPermissionChange s o false).state.prefs.allowed := by
        rw [hs1]; exact not_mem_erase_self _ _ ha
      rw [persist_deny_noop _ o hotr1 hmem hna]
      exact ⟨rfl, rfl, rfl, rfl⟩
  · constructor
    · rw [persist_otr_result s o true hotr]
      rw [persist_otr_result s o true hotr]
      exact ⟨rfl, rfl, rfl, rfl⟩
    · rw [persist_otr_result s o false hotr]
      rw [persist_otr_result s o false hotr]
      exact ⟨rfl, rfl, rfl, rfl⟩

/-- Witness for C6 on a concrete profile state. -/
theorem C6_record_decision_idempotent_witness :
    ((PersistPermissionChange (PersistPermissionChange
          { isOffTheRecord := false,
            prefs := { defaultSettingInt := 3,
                       allowed := [], denied := ["http://c.test/"] } }
          "http://c.test/" true).state "http://c.test/" true).state
        = (PersistPermissionChange
            { isOffTheRecord := false,
              prefs := { defaultSettingInt := 3,
                         allowed := [], denied := ["http://c.test/"] } }
            "http://c.test/" true).state ∧
      (PersistPermissionChange (PersistPermissionChange
          { isOffTheRecord := false,
            prefs := { defaultSettingInt := 3,
                       allowed := [], denied := ["http://c.test/"] } }
          "http://c.test/" true).state "http://c.test/" true).allowed_changed
        = false ∧
      (PersistPermissionChange (PersistPermissionChange
          { isOffTheRecord := false,
            prefs := { defaultSettingInt := 3,
                       allowed := [], denied := ["http://c.test/"] } }
          "http://c.test/" true).state "http://c.test/" true).denied_changed
        = false ∧
      (PersistPermissionChange (PersistPermissionChange
          { isOffTheRecord := false,
            prefs := { defaultSettingInt := 3,
                       allowed := [], denied := ["http://c.test/"] } }
          "http://c.test/" true).state "http://c.test/" true).saveScheduled
        = false) ∧
    ((PersistPermissionChange (PersistPermissionChange
          { isOffTheRecord := false,
            prefs := { defaultSettingInt := 3,
                       allowed := [], denied := ["http://c.test/"] } }
          "http://c.test/" false).state "http://c.test/" false).state
        = (PersistPermissionChange
            { isOffTheRecord := false,
              prefs := { defaultSettingInt := 3,
                         allowed := [], denied := ["http://c.test/"] } }
            "http://c.test/" false).state ∧
      (PersistPermissionChange (PersistPermissionChange
          { isOffTheRecord := false,
            prefs := { defaultSettingInt := 3,
                       allowed := [], denied := ["http://c.test/"] } }
          "http://c.test/" false).state "http://c.test/" false).denied_changed
        = false ∧
      (PersistPermissionChange (PersistPermissionChange
          { isOffTheRecord := false,
            prefs := { defaultSettingInt := 3,
                       allowed := [], denied := ["http://c.test/"] } }
          "http://c.test/" false).state "http://c.test/" false).allowed_changed
        = false ∧
      (PersistPermissionChange (PersistPermissionChange
          { isOffTheRecord := false,
            prefs := { defaultSettingInt := 3,
                       allowed := [], denied := ["http://c.test/"] } }
          "http://c.test/" false).state "http://c.test/" false).saveScheduled
        = false) :=
  C6_record_decision_idempotent
    { isOffTheRecord := false,
      prefs := { defaultSettingInt := 3,
                 allowed := [], denied := ["http://c.test/"] } }
    "http://c.test/"
    ⟨List.nodup_nil, List.nodup_singleton _, by simp⟩

/-- Counterexample to C7: with no icon and both title and body empty, the
source picks the one-line template (`title.empty() || body.empty()`), but
the claimed rule ("exactly one of title/body non-empty → single-line, else
two-line") picks the two-line template. -/
theorem C7_counterexample :
    (CreateDataUrl false "" "" "" false).resource
      ≠ specLayoutSelection false "" "" := by
  decide

/-- C7 as amended: `CreateDataUrl` selects the icon layout iff the icon URL
is valid; otherwise the single-line layout iff the title or the body is
empty (including both empty); otherwise the two-line layout; and in every
branch the text-direction substitution appended last is `"rtl"` for
right-to-left and `"ltr"` otherwise, independent of the branch taken. -/
theorem C7_amended_layout_selection (iconValid : Bool)
    (iconSpec title body : String) (rtl : Bool) :
    ((CreateDataUrl iconValid iconSpec title body rtl).resource
        = LayoutResource.iconHTML ↔ iconValid = true) ∧
    ((CreateDataUrl iconValid iconSpec title body rtl).resource
        = LayoutResource.oneLineHTML ↔
      iconValid = false ∧ (title = "" ∨ body = "")) ∧
    ((CreateDataUrl iconValid iconSpec title body rtl).resource
        = LayoutResource.twoLineHTML ↔
      iconValid = false ∧ title ≠ "" ∧ body ≠ "") ∧
    (CreateDataUrl iconValid iconSpec title body rtl).subst.getLast?
        = some (if rtl then "rtl" else "ltr") := by
  cases iconValid <;> by_cases ht : title = "" <;> by_cases hb : body = "" <;>
    simp [CreateDataUrl, ht, hb]

/-- C8: on a regular profile with well-formed lists, resetting an origin
present in the targeted list removes it from that list and leaves the other
list untouched; resetting an origin absent from the targeted list is the
`DCHECK`-logged misuse case (`removedIndex = -1`) and changes neither list
nor any other persisted state. -/
theorem C8_reset_origin_misuse (s : ServiceState) (o : String)
    (hotr : s.isOffTheRecord = false) (hwf : WellFormedLists s.prefs) :
    (o ∈ s.prefs.allowed →
      o ∉ (ResetAllowedOrigin s o).state.prefs.allowed ∧
      (ResetAllowedOrigin s o).state.prefs.denied = s.prefs.denied) ∧
    (o ∉ s.prefs.allowed →
      (ResetAllowedOrigin s o).state = s ∧
      (ResetAllowedOrigin s o).removedIndex = -1) ∧
    (o ∈ s.prefs.denied →
      o ∉ (ResetBlockedOrigin s o).state.prefs.denied ∧
      (ResetBlockedOrigin s o).state.prefs.allowed = s.prefs.allowed) ∧
    (o ∉ s.prefs.denied →
      (ResetBlockedOrigin s o).state = s ∧
      (ResetBlockedOrigin s o).removedIndex = -1) := by
  obtain ⟨ha, hd, hx⟩ := hwf
  obtain ⟨otr, di, al, de⟩ := s
  dsimp only at hotr ha hd ⊢
  subst hotr
  refine ⟨?_, ?_, ?_, ?_⟩
  · intro hm
    simp [ResetAllowedOrigin, listRemove, hm, not_mem_erase_self al o ha]
  · intro hm
    simp [ResetAllowedOrigin, listRemove, hm]
  · intro hm
    simp [ResetBlockedOrigin, listRemove, hm, not_mem_erase_self de o hd]
  · intro hm
    simp [ResetBlockedOrigin, listRemove, hm]

/-- Witness for C8: a concrete profile, resetting a present allowed origin
and an absent denied origin. -/
theorem C8_reset_origin_misuse_witness :
    ("http://p.test/" ∈ (["http://p.test/"] : List String) →
      "http://p.test/" ∉ (ResetAllowedOrigin
          { isOffTheRecord := false,
            prefs := { defaultSettingInt := 3,
                       allowed := ["http://p.test/"], denied := [] } }
          "http://p.test/").state.prefs.allowed ∧
      (ResetAllowedOrigin
          { isOffTheRecord := false,
            prefs := { defaultSettingInt := 3,
                       allowed := ["http://p.test/"], denied := [] } }
          "http://p.test/").state.prefs.denied = []) ∧
    ("http://p.test/" ∉ (["http://p.test/"] : List String) →
      (ResetAllowedOrigin
          { isOffTheRecord := false,
            prefs := { defaultSettingInt := 3,
                       allowed := ["http://p.test/"], denied := [] } }
          "http://p.test/").state
        = { isOffTheRecord := false,
            prefs := { defaultSettingInt := 3,
                       allowed := ["http://p.test/"], denied := [] } } ∧
      (ResetAllowedOrigin
          { isOffTheRecord := false,
            prefs := { defaultSettingInt := 3,
                       allowed := ["http://p.test/"], denied := [] } }
          "http://p.test/").removedIndex = -1) ∧
    ("http://p.test/" ∈ ([] : List String) →
      "http://p.test/" ∉ (ResetBlockedOrigin
          { isOffTheRecord := false,
            prefs := { defaultSettingInt := 3,
                       allowed := ["http://p.test/"], denied := [] } }
          "http://p.test/").state.prefs.denied ∧
      (ResetBlockedOrigin
          { isOffTheRecord := false,
            prefs := { defaultSettingInt := 3,
                       allowed := ["http://p.test/"], denied := [] } }
          "http://p.test/").state.prefs.allowed = ["http://p.test/"]) ∧
    ("http://p.test/" ∉ ([] : List String) →
      (ResetBlockedOrigin
          { isOffTheRecord := false,
            prefs := { defaultSettingInt := 3,
                       allowed := ["http://p.test/"], denied := [] } }
          "http://p.test/").state
        = { isOffTheRecord := false,
            prefs := { defaultSettingInt := 3,
                       allowed := ["http://p.test/"], denied := [] } } ∧
      (ResetBlockedOrigin
          { isOffTheRecord := false,
            prefs := { defaultSettingInt := 3,
                       allowed := ["http://p.test/"], denied := [] } }
          "http://p.test/").removedIndex = -1) :=
  C8_reset_origin_misuse
    { isOffTheRecord := false,
      prefs := { defaultSettingInt := 3,
                 allowed := ["http://p.test/"], denied := [] } }
    "http://p.test/" rfl
    ⟨List.nodup_singleton _, List.nodup_nil, by simp⟩

/-- C9: `SetDefaultContentSetting` never stores the `CONTENT_SETTING_DEFAULT`
sentinel (it normalises it to the factory default ASK before writing), and
`GetDefaultContentSetting` never returns the sentinel — a stored integer
decoding to the sentinel is reported as the factory default ASK. -/
theorem C9_default_policy_sentinel (s : ServiceState) (p : ContentSetting) :
    IntToContentSetting
        (SetDefaultContentSetting s p).prefs.defaultSettingInt
      ≠ ContentSetting.default ∧
    (SetDefaultContentSetting s ContentSetting.default).prefs.defaultSettingInt
      = contentSettingToInt ContentSetting.ask ∧
    GetDefaultContentSetting s ≠ ContentSetting.default ∧
    (IntToContentSetting s.prefs.defaultSettingInt = ContentSetting.default →
      GetDefaultContentSetting s = kDefaultSetting) := by
  refine ⟨?_, rfl, ?_, ?_⟩
  · cases p <;>
      simp [SetDefaultContentSetting, IntToContentSetting,
        contentSettingToInt, kDefaultSetting]
  · by_cases h : IntToContentSetting s.prefs.defaultSettingInt
        = ContentSetting.default
    · simp [GetDefaultContentSetting, h, kDefaultSetting]
    · simp [GetDefaultContentSetting, h]
  · intro h
    simp [GetDefaultContentSetting, h]

/-- Witness for C9 at a concrete stored sentinel value. -/
theorem C9_default_policy_sentinel_witness :
    GetDefaultContentSetting
        { isOffTheRecord := false,
          prefs := { defaultSettingInt := 0, allowed := [], denied := [] } }
      = kDefaultSetting :=
  (C9_default_policy_sentinel
      { isOffTheRecord := false,
        prefs := { defaultSettingInt := 0, allowed := [], denied := [] } }
      ContentSetting.default).2.2.2 (by decide)

theorem otr_applyGrantDeny_fixed (s : ServiceState) (op : GrantDenyOp)
    (h : s.isOffTheRecord = true) : applyGrantDeny s op = s := by
  cases op <;> simp [applyGrantDeny, GrantPermission, DenyPermission,
    persist_otr_result _ _ _ h]

theorem otr_applyGrantDenySeq_fixed (s : ServiceState)
    (ops : List GrantDenyOp) (h : s.isOffTheRecord = true) :
    applyGrantDenySeq s ops = s := by
  induction ops with
  | nil => rfl
  | cons op rest ih =>
    show applyGrantDenySeq (applyGrantDeny s op) rest = s
    rw [otr_applyGrantDeny_fixed s op h]
    exact ih

/-- C10: on an off-the-record profile, `GetContentSetting` returns the
factory default ASK for every origin, whatever `GrantPermission` /
`DenyPermission` calls came before and whatever default policy the
underlying preference slice holds. -/
theorem C10_otr_query_always_ask (s : ServiceState)
    (ops : List GrantDenyOp) (o : String)
    (h : s.isOffTheRecord = true) :
    GetContentSetting (applyGrantDenySeq s ops) o = ContentSetting.ask := by
  rw [otr_applyGrantDenySeq_fixed s ops h]
  simp [GetContentSetting, h, kDefaultSetting]

/-- Witness for C10: an off-the-record profile whose underlying slice has a
BLOCK default policy still answers ASK after a grant and a deny. -/
theorem C10_otr_query_always_ask_witness :
    GetContentSetting (applyGrantDenySeq
        { isOffTheRecord := true,
          prefs := { defaultSettingInt := 2, allowed := [], denied := [] } }
        [GrantDenyOp.grant "http://x.test/",
         GrantDenyOp.deny "http://x.test/"]) "http://x.test/"
      = ContentSetting.ask :=
  C10_otr_query_always_ask
    { isOffTheRecord := true,
      prefs := { defaultSettingInt := 2, allowed := [], denied := [] } }
    [GrantDenyOp.grant "http://x.test/", GrantDenyOp.deny "http://x.test/"]
    "http://x.test/" rfl

/-- Witness for the amended C7 at concrete inputs. -/
theorem C7_amended_layout_selection_witness :
    ((CreateDataUrl false "" "Title" "" true).resource
        = LayoutResource.iconHTML ↔ false = true) ∧
    ((CreateDataUrl false "" "Title" "" true).resource
        = LayoutResource.oneLineHTML ↔
      false = false ∧ ("Title" = "" ∨ "" = "")) ∧
    ((CreateDataUrl false "" "Title" "" true).resource
        = LayoutResource.twoLineHTML ↔
      false = false ∧ "Title" ≠ "" ∧ "" ≠ "") ∧
    (CreateDataUrl false "" "Title" "" true).subst.getLast?
        = some (if true then "rtl" else "ltr") :=
  C7_amended_layout_selection false "" "Title" "" true
